import Mathlib

/-!
Verification of the patron Kafka consumption engine (group and simple mode)
against its design specification. The Go sources embedded here are
src/async/kafka/group/group.go, src/unnamed/part_000 (a second revision of the
group consumer package) and src/unnamed/part_001 (the simple consumer package).
Helpers of the kafka support package (ClaimMessage, SaramaConfig,
TopicPartitionOffsetDiffGaugeSet) are not part of the sources and are modelled
from the spec where needed; each such definition is marked.
-/

set_option linter.unusedVariables false

namespace Patron

/-- Raw payload bytes of a record, abstracted as a list of byte values. -/
abbrev Payload := List Nat

/-- Decoded domain value produced by the decoder hook. -/
abbrev Val := Nat

/-- Errors as a syntax tree, so that wrapping and option attribution stay
observable: msg is errors.New, wrap is errors.Wrap or a fmt.Errorf with a
wrapped cause, optionErr is the group Create error that carries the name of
the failing OptionFunc (obtained via reflection in the source). -/
inductive Err where
  | msg (s : String)
  | wrap (s : String) (e : Err)
  | optionErr (funcName : String) (e : Err)
deriving DecidableEq, Repr

/-- True when the error names the failing option, as only the optionErr shape
produced by the group Create in src/async/kafka/group/group.go does. -/
def Err.namesOption : Err → Bool
  | .optionErr _ _ => true
  | _ => false

/-- True when the error wraps an underlying cause at all. -/
def Err.isWrapping : Err → Bool
  | .wrap _ _ => true
  | .optionErr _ _ => true
  | .msg _ => false

/-- Decoder hook: pluggable function from payload bytes to a decoded value. -/
abbrev Decoder := Payload → Except Err Val

/-- Boolean success test for an Except result. -/
def exOk {α : Type} : Except Err α → Bool
  | .ok _ => true
  | .error _ => false

/-- A raw record as fetched from one partition. -/
structure RawRecord where
  topic : String
  partition : Int
  offset : Int
  payload : Payload
deriving DecidableEq, Repr

/-- A decoded domain message handed to the caller; hasAck records whether a
group-session acknowledgment handle is attached. -/
structure Message where
  value : Val
  hasAck : Bool
deriving DecidableEq, Repr

/-- Modelled from the spec: kafka.ClaimMessage, the claim processor of spec
section 4.5, is not under src. It decodes the payload with the configured
decoder; on decoder error it returns that error verbatim; on success it wraps
the decoded value into a Message, attaching the acknowledgment handle exactly
when a group session is present (the sess argument of the source call sites is
non-nil in group mode and nil in simple mode). -/
def claimMessage (dec : Decoder) (hasSession : Bool) (r : RawRecord) : Except Err Message :=
  match dec r.payload with
  | .error e => .error e
  | .ok v => .ok { value := v, hasAck := hasSession }

/-- Observable events of the consumption engine: metric updates, decode
activity, task dispatch, and sends on the message and error queues. -/
inductive Event where
  | gauge (group topic : String) (partition : Int) (value : Int)
  | decodeCall (r : RawRecord)
  | spawnDecode (r : RawRecord)
  | emitMsg (m : Message)
  | emitErr (e : Err)
deriving DecidableEq, Repr

/-- Modelled from the spec: kafka.TopicPartitionOffsetDiffGaugeSet is not under
src. Per spec section 6 it is a gauge keyed by group, topic and partition,
updated with highWaterMark minus currentOffset. -/
def topicPartitionOffsetDiffGaugeSet (group topic : String) (partition hwm offset : Int) :
    Event :=
  .gauge group topic partition (hwm - offset)

/-- Messages sent on the message queue, in trace order. -/
def emittedMessages (tr : List Event) : List Message :=
  tr.filterMap fun e =>
    match e with
    | .emitMsg m => some m
    | _ => none

/-- Errors sent on the error queue, in trace order. -/
def emittedErrors (tr : List Event) : List Err :=
  tr.filterMap fun e =>
    match e with
    | .emitErr er => some er
    | _ => none

/-- Records on which the claim processor was invoked, in trace order. -/
def decodeCalls (tr : List Event) : List RawRecord :=
  tr.filterMap fun e =>
    match e with
    | .decodeCall r => some r
    | _ => none

/-- Records for which a fire-and-forget decode task was dispatched. -/
def spawnedDecodes (tr : List Event) : List RawRecord :=
  tr.filterMap fun e =>
    match e with
    | .spawnDecode r => some r
    | _ => none

/-- Modelled from the spec: the sarama client configuration built by
kafka.SaramaConfig / kafka.DefaultSaramaConfig, which is not under src; spec
section 4.1 says Create builds a default client configuration keyed by name,
purely in memory. -/
structure SaramaCfg where
  clientID : String
deriving DecidableEq, Repr

/-- Modelled from the spec: kafka.SaramaConfig builds the default client
configuration keyed by name with no failure path described. -/
def saramaConfig (name : String) : Except Err SaramaCfg :=
  .ok { clientID := name }

/-- kafka.ConsumerConfig: brokers, queue buffer capacity, and the optional
decoder hook (a nil Go function pointer is none). -/
structure ConsumerConfig where
  brokers : List String
  buffer : Nat
  decoderFunc : Option Decoder

/-- An option mutator (kafka.OptionFunc): carries the function name that the
group Create reports via reflection, and the mutation itself, modelled as a
fallible transformation of the consumer configuration it targets. -/
structure OptionFunc where
  funcName : String
  fn : ConsumerConfig → Except Err ConsumerConfig

/-- Factory of the group consumer package (both group.go and part_000). -/
structure GroupFactory where
  name : String
  group : String
  topic : String
  brokers : List String
  oo : List OptionFunc

/-- Factory of the simple consumer package (part_001). -/
structure SimpleFactory where
  name : String
  topic : String
  brokers : List String
  oo : List OptionFunc

/-- New of the group package: validates name, group, brokers, topic in source
order and otherwise returns the factory. -/
def groupNew (name group topic : String) (brokers : List String) (oo : List OptionFunc) :
    Except Err GroupFactory :=
  if name = "" then .error (.msg "name is required")
  else if group = "" then .error (.msg "group is required")
  else if brokers.length = 0 then .error (.msg "provide at least one broker")
  else if topic = "" then .error (.msg "topic is required")
  else .ok { name := name, group := group, topic := topic, brokers := brokers, oo := oo }

/-- New of the simple package: validates name, brokers, topic in source order
and otherwise returns the factory. -/
def simpleNew (name topic : String) (brokers : List String) (oo : List OptionFunc) :
    Except Err SimpleFactory :=
  if name = "" then .error (.msg "name is required")
  else if brokers.length = 0 then .error (.msg "provide at least one broker")
  else if topic = "" then .error (.msg "topic is required")
  else .ok { name := name, topic := topic, brokers := brokers, oo := oo }

/-- Option application loop of Create in src/async/kafka/group/group.go: each
mutator is applied in declaration order; the first failure aborts with an error
that names the failing OptionFunc (the source formats the function name
obtained by reflection into the message). -/
def groupApplyOptions (cfg : ConsumerConfig) : List OptionFunc → Except Err ConsumerConfig
  | [] => .ok cfg
  | o :: rest =>
    match o.fn cfg with
    | .error e => .error (.optionErr o.funcName e)
    | .ok cfg2 => groupApplyOptions cfg2 rest

/-- Option application loop of Create in src/unnamed/part_000: as in group.go
but the error only wraps the cause, without naming the failing option. -/
def group0ApplyOptions (cfg : ConsumerConfig) : List OptionFunc → Except Err ConsumerConfig
  | [] => .ok cfg
  | o :: rest =>
    match o.fn cfg with
    | .error e => .error (.wrap "could not apply OptionFunc to consumer" e)
    | .ok cfg2 => group0ApplyOptions cfg2 rest

/-- Option application loop of Create in src/unnamed/part_001 (simple mode):
the first failing mutator aborts and its error is returned as-is, unwrapped. -/
def simpleApplyOptions (cfg : ConsumerConfig) : List OptionFunc → Except Err ConsumerConfig
  | [] => .ok cfg
  | o :: rest =>
    match o.fn cfg with
    | .error e => .error e
    | .ok cfg2 => simpleApplyOptions cfg2 rest

/-- Model of the external sarama.ConsumerGroup handle: only its closed flag is
observable to this engine. -/
structure CoordClient where
  closed : Bool
deriving DecidableEq, Repr

/-- The group consumer runtime state: the cancel function is nil until Consume
stores one (cnl), firing it cancels the derived context (ctxCancelled), and the
coordination client interface is nil until Consume stores one (cg = none). -/
structure GroupConsumer where
  topic : String
  group : String
  traceTagValue : String
  cnl : Bool
  ctxCancelled : Bool
  cg : Option CoordClient
  consumerCnf : ConsumerConfig
  saramaCnf : SaramaCfg

/-- The consumer configuration the group Create assembles before options run:
the factory brokers, Buffer 0, and the zero-value (nil) decoder hook. -/
def groupDefaultCC (brokers : List String) : ConsumerConfig :=
  { brokers := brokers, buffer := 0, decoderFunc := none }

/-- The consumer configuration the simple Create assembles before options run:
the factory brokers, Buffer 1000, and the zero-value (nil) decoder hook. -/
def simpleDefaultCC (brokers : List String) : ConsumerConfig :=
  { brokers := brokers, buffer := 1000, decoderFunc := none }

/-- Create of src/async/kafka/group/group.go: builds the sarama configuration
keyed by the factory name, assembles the consumer with Buffer 0, then applies
the option mutators in declaration order with the named-option error wrap. -/
def groupCreate (f : GroupFactory) : Except Err GroupConsumer :=
  match saramaConfig f.name with
  | .error e => .error e
  | .ok config =>
    let cc : ConsumerConfig := groupDefaultCC f.brokers
    match groupApplyOptions cc f.oo with
    | .error e => .error e
    | .ok cc2 =>
      .ok { topic := f.topic, group := f.group, traceTagValue := f.group,
            cnl := false, ctxCancelled := false, cg := none,
            consumerCnf := cc2, saramaCnf := config }

/-- Create of src/unnamed/part_000: identical to group.go Create except that a
failing option is reported by wrap without naming the option. -/
def group0Create (f : GroupFactory) : Except Err GroupConsumer :=
  match saramaConfig f.name with
  | .error e => .error e
  | .ok config =>
    let cc : ConsumerConfig := groupDefaultCC f.brokers
    match group0ApplyOptions cc f.oo with
    | .error e => .error e
    | .ok cc2 =>
      .ok { topic := f.topic, group := f.group, traceTagValue := f.group,
            cnl := false, ctxCancelled := false, cg := none,
            consumerCnf := cc2, saramaCnf := config }

/-- The simple consumer runtime state: cancel function and derived context as
in group mode; msSet records whether the master sarama.Consumer handle c.ms has
been stored by partitions(), msClosed whether that handle was ever closed. -/
structure SimpleConsumer where
  topic : String
  cnl : Bool
  ctxCancelled : Bool
  msSet : Bool
  msClosed : Bool
  consumerCnf : ConsumerConfig
  saramaCnf : SaramaCfg

/-- Create of src/unnamed/part_001: builds the sarama configuration keyed by
the factory name, assembles the consumer with Buffer 1000, then applies the
option mutators in declaration order, returning a failing option error
unwrapped. -/
def simpleCreate (f : SimpleFactory) : Except Err SimpleConsumer :=
  match saramaConfig f.name with
  | .error e => .error e
  | .ok config =>
    let cc : ConsumerConfig := simpleDefaultCC f.brokers
    match simpleApplyOptions cc f.oo with
    | .error e => .error e
    | .ok cc2 =>
      .ok { topic := f.topic, cnl := false, ctxCancelled := false,
            msSet := false, msClosed := false,
            consumerCnf := cc2, saramaCnf := config }

/-- Model of the external sarama.ConsumerGroup Close (an inbound collaborator,
spec section 6): it marks the client closed; the client library makes closing
idempotent and it reports no error in the scenarios considered here. -/
def coordClose (c : CoordClient) : Except Err CoordClient :=
  .ok { c with closed := true }

/-- Close of the group consumer (group.go line 96 and part_000 line 89): fires
the cancel function when one is set, then calls Close on the c.cg interface.
When Consume has never run, c.cg is the nil Go interface and the method call
panics, modelled as the result none; otherwise the client close result is
returned, wrapped on failure (errors.Wrap of a nil error is nil). -/
def groupClose (c : GroupConsumer) : Option (Except Err GroupConsumer) :=
  let c1 := if c.cnl then { c with ctxCancelled := true } else c
  match c1.cg with
  | none => none
  | some cl =>
    match coordClose cl with
    | .error e => some (.error (.wrap "failed to close consumer" e))
    | .ok cl2 => some (.ok { c1 with cg := some cl2 })

/-- Close of the simple consumer (part_001 line 85): fires the cancel function
when one is set and returns nil; it touches neither the master client handle
nor any partition reader. -/
def simpleClose (c : SimpleConsumer) : Except Err SimpleConsumer :=
  .ok (if c.cnl then { c with ctxCancelled := true } else c)

/-- The triple returned by Consume: queue values are the capacities of the
returned message and error channels (none stands for a nil channel), tasks is
the number of background goroutines started by this call, and err is the
synchronous setup error. -/
structure ConsumeReturn where
  msgQueueCap : Option Nat
  errQueueCap : Option Nat
  tasksStarted : Nat
  err : Option Err
deriving DecidableEq, Repr

/-- Consume plus consumeWithGroup of the group consumer: derives a cancellable
context (storing the cancel function), opens the coordination client, and on
success allocates both channels with the configured Buffer capacity and starts
the watchdog and session-loop goroutines. newCgRes models the result of
sarama.NewConsumerGroup. -/
def groupConsume (c : GroupConsumer) (newCgRes : Except Err CoordClient) :
    ConsumeReturn × GroupConsumer :=
  let c1 := { c with cnl := true }
  match newCgRes with
  | .error e =>
    ({ msgQueueCap := none, errQueueCap := none, tasksStarted := 0,
       err := some (.wrap "failed to create consumer" e) }, c1)
  | .ok cg =>
    ({ msgQueueCap := some c1.consumerCnf.buffer, errQueueCap := some c1.consumerCnf.buffer,
       tasksStarted := 2, err := none }, { c1 with cg := some cg })

/-- A per-partition reader handle (sarama.PartitionConsumer). -/
structure PartitionReader where
  partition : Int
  closed : Bool
deriving DecidableEq, Repr

/-- Consume plus consume of the simple consumer, as a function of the result of
c.partitions() (the external discovery: connect, list partitions, open one
reader per partition). The channels are allocated with the configured Buffer
capacity of the consumer, but on a discovery error or on zero discovered
partitions the source returns nil, nil and an error without starting any pump;
otherwise it starts one pump goroutine per partition reader and returns the two
channels. -/
def simpleConsume (c : SimpleConsumer) (pcs : Except Err (List PartitionReader)) :
    ConsumeReturn :=
  match pcs with
  | .error e =>
    { msgQueueCap := none, errQueueCap := none, tasksStarted := 0,
      err := some (.wrap "failed to get partitions" e) }
  | .ok l =>
    if l.length = 0 then
      { msgQueueCap := none, errQueueCap := none, tasksStarted := 0,
        err := some (.msg "got 0 partitions") }
    else
      { msgQueueCap := some c.consumerCnf.buffer, errQueueCap := some c.consumerCnf.buffer,
        tasksStarted := l.length, err := none }

/-- Result of one iteration of the watchdog goroutine select. -/
inductive WatchdogStep where
  | blocked
  | exitClean
  | exitErr (e : Err)
deriving DecidableEq, Repr

/-- Outcome of one watchdog iteration: how the select resolved and whether this
iteration closed the coordination client. -/
structure WatchdogOut where
  result : WatchdogStep
  clientClosed : Bool
deriving DecidableEq, Repr

/-- One iteration of the watchdog goroutine in consumeWithGroup: on context
cancellation it closes the coordination client and returns without signalling
an error; on a fatal coordination error it closes the client, forwards the
error onto the error queue (exitErr carries it) and returns; with neither
select branch ready it stays blocked. -/
def watchdogIter (ctxDone : Bool) (consumerErr : Option Err) : WatchdogOut :=
  if ctxDone then { result := .exitClean, clientClosed := true }
  else
    match consumerErr with
    | some e => { result := .exitErr e, clientClosed := true }
    | none => { result := .blocked, clientClosed := false }

/-- The error the external sarama client returns from Consume once the
consumer group has been closed. -/
def errClosedConsumerGroup : Err :=
  .msg "kafka: tried to use a consumer group that was closed"

/-- Model of the external coordination-client Consume call of one session: on a
closed client it fails immediately with errClosedConsumerGroup; otherwise the
session ends with the claim-handler result (none models a clean rebalance). -/
def cgConsumeResult (cl : CoordClient) (handlerRes : Except Err Unit) : Option Err :=
  if cl.closed then some errClosedConsumerGroup
  else
    match handlerRes with
    | .error e => some e
    | .ok _ => none

/-- One iteration of the session-loop goroutine in consumeWithGroup, given the
error result of the Consume call of that iteration: a non-nil error is
forwarded onto the error queue, and the loop continues unconditionally — the
source loop body contains no break and no return, so the second component,
whether the loop keeps running, is always true. -/
def sessionLoopIter (consumeRes : Option Err) : Option Err × Bool :=
  (consumeRes, true)

/-- Runs the session loop for a given number of iterations in a steady state
where every Consume call yields the same result (as after the client has been
closed). Returns the errors forwarded onto the error queue and whether the
loop exited within that many iterations. -/
def sessionLoopRun (consumeRes : Option Err) : Nat → List Err × Bool
  | 0 => ([], false)
  | n + 1 =>
    let step := sessionLoopIter consumeRes
    let emitted := match step.1 with
      | some e => [e]
      | none => ([] : List Err)
    if step.2 then
      let rest := sessionLoopRun consumeRes n
      (emitted ++ rest.1, rest.2)
    else (emitted, true)

/-- ConsumeClaim of the group handler (group.go line 170, part_000 line 163):
iterates the record stream of one claim; per record it first sets the lag
gauge from the high-water mark observed at that iteration, then claim-processes
the record; a decode error is returned immediately, otherwise the message is
sent on the message queue and the iteration continues. The stream is given as
pairs of the high-water mark read at that iteration and the record. -/
def consumeClaim (group : String) (dec : Decoder) :
    List (Int × RawRecord) → List Event × Except Err Unit
  | [] => ([], .ok ())
  | (hwm, r) :: rest =>
    let gaugeEv := topicPartitionOffsetDiffGaugeSet group r.topic r.partition hwm r.offset
    match claimMessage dec true r with
    | .error e => ([gaugeEv, .decodeCall r], .error e)
    | .ok m =>
      let p := consumeClaim group dec rest
      (gaugeEv :: .decodeCall r :: .emitMsg m :: p.1, p.2)

/-- The events ConsumeClaim emits for one record it reaches: the lag gauge
update first, then the claim-processor invocation, then, when decoding
succeeds, the send of the resulting message. -/
def claimBlock (group : String) (dec : Decoder) (hwm : Int) (r : RawRecord) : List Event :=
  match claimMessage dec true r with
  | .error _ =>
    [topicPartitionOffsetDiffGaugeSet group r.topic r.partition hwm r.offset, .decodeCall r]
  | .ok m =>
    [topicPartitionOffsetDiffGaugeSet group r.topic r.partition hwm r.offset,
      .decodeCall r, .emitMsg m]

/-- The prefix of a claim stream that ConsumeClaim actually reaches: every
record up to and including the first one whose decode fails. -/
def processedClaim (dec : Decoder) : List (Int × RawRecord) → List (Int × RawRecord)
  | [] => []
  | (hwm, r) :: rest =>
    match claimMessage dec true r with
    | .error _ => [(hwm, r)]
    | .ok _ => (hwm, r) :: processedClaim dec rest

/-- State of one simple-mode pump goroutine and the reader it owns. -/
structure PumpState where
  reader : PartitionReader
  exited : Bool
deriving DecidableEq, Repr

/-- The select input a pump iteration resolves on. -/
inductive PumpInput where
  | ctxDone
  | readerErr (e : Err)
  | record (hwm : Int) (r : RawRecord)
deriving DecidableEq, Repr

/-- One iteration of a partition pump in the simple consume (part_001 line
117): on context cancellation it closes its own reader and exits; on a fatal
reader error it closes the reader, forwards the error and exits; on a record it
sets the lag gauge with empty group key, from the high-water mark of the
reader at that moment, and dispatches the decode of that record as an
independent fire-and-forget task, then continues. -/
def pumpIter (p : PumpState) (input : PumpInput) : PumpState × List Event :=
  match input with
  | .ctxDone =>
    ({ reader := { p.reader with closed := true }, exited := true }, [])
  | .readerErr e =>
    ({ reader := { p.reader with closed := true }, exited := true }, [.emitErr e])
  | .record hwm r =>
    (p, [topicPartitionOffsetDiffGaugeSet "" r.topic r.partition hwm r.offset, .spawnDecode r])

/-- The fire-and-forget decode-and-emit goroutine the pump spawns per record:
claim-processes the record (with no group session); on error it sends that one
error on the error queue and returns; on success it sends the message. -/
def decodeTask (dec : Decoder) (r : RawRecord) : List Event :=
  match claimMessage dec false r with
  | .error e => [.decodeCall r, .emitErr e]
  | .ok m => [.decodeCall r, .emitMsg m]

/-- Runs one pump over a stream of incoming records (no cancellation and no
reader error among the inputs), recording for each record the pump events
followed by the events of the decode task of that record. The interleaving of
decode tasks across records is not otherwise constrained by the source; this
sequential schedule is one admissible order and suffices for per-record
properties. -/
def pumpRecords (dec : Decoder) (p : PumpState) :
    List (Int × RawRecord) → PumpState × List Event
  | [] => (p, [])
  | (hwm, r) :: rest =>
    let step := pumpIter p (.record hwm r)
    let tr := decodeTask dec r
    let restRun := pumpRecords dec step.1 rest
    (restRun.1, step.2 ++ tr ++ restRun.2)

/-- Applies the cancellation branch of every pump: each pump observes the
cancelled context at its next iteration, closes its own reader and exits. -/
def settlePumps (pumps : List PumpState) : List PumpState :=
  pumps.map fun p => (pumpIter p .ctxDone).1

/-- A concrete group factory with no options, used for concrete evaluations. -/
def fac0 : GroupFactory :=
  { name := "svc", group := "grp", topic := "orders", brokers := ["b1"], oo := [] }

/-- The consumer groupCreate builds from fac0. -/
def consumer0 : GroupConsumer :=
  { topic := "orders", group := "grp", traceTagValue := "grp",
    cnl := false, ctxCancelled := false, cg := none,
    consumerCnf := { brokers := ["b1"], buffer := 0, decoderFunc := none },
    saramaCnf := { clientID := "svc" } }

/-- A concrete always-succeeding decoder: decodes a payload to its length. -/
def decW : Decoder := fun payload => .ok payload.length

/-- A concrete decoder succeeding exactly on one-byte payloads. -/
def decMix : Decoder := fun payload =>
  if payload.length = 1 then .ok 1 else .error (.msg "decode failed")

/-- A concrete record at offset 0 with a one-byte payload. -/
def rec0 : RawRecord := { topic := "orders", partition := 0, offset := 0, payload := [7] }

/-- A concrete record at offset 1 with a two-byte payload. -/
def rec1 : RawRecord := { topic := "orders", partition := 0, offset := 1, payload := [7, 8] }

/-- A concrete two-record claim stream in offset order 0, 1. -/
def rsW : List (Int × RawRecord) := [(5, rec0), (5, rec1)]

/-- A concrete option mutator that always fails with a bare error. -/
def badOpt : OptionFunc := { funcName := "WithBad", fn := fun _ => .error (.msg "boom") }

/-- A concrete simple factory whose single option fails. -/
def sfacBad : SimpleFactory :=
  { name := "svc", topic := "orders", brokers := ["b1"], oo := [badOpt] }

/-- A concrete simple factory with no options. -/
def sfac0 : SimpleFactory := { name := "svc", topic := "orders", brokers := ["b1"], oo := [] }

/-- The consumer simpleCreate builds from sfac0. -/
def simpleConsumer0 : SimpleConsumer :=
  { topic := "orders", cnl := false, ctxCancelled := false, msSet := false, msClosed := false,
    consumerCnf := { brokers := ["b1"], buffer := 1000, decoderFunc := none },
    saramaCnf := { clientID := "svc" } }

/-- A simple consumer in the Consuming state: Consume stored the cancel
function and partitions() stored the master client handle. -/
def simpleConsuming : SimpleConsumer := { simpleConsumer0 with cnl := true, msSet := true }

/-- A concrete running pump owning the open reader of partition 0. -/
def pump0 : PumpState := { reader := { partition := 0, closed := false }, exited := false }

/-- A concrete open partition reader. -/
def reader0 : PartitionReader := { partition := 0, closed := false }

/-! Theorems. -/

/-- C6: Factory.New returns a validation error exactly when a required field is
missing (empty name, empty topic, empty broker list in either mode, empty group
in group mode), and succeeds for all non-empty required fields. -/
theorem C6_new_validation (name group topic : String) (brokers : List String)
    (oo : List OptionFunc) :
    (exOk (groupNew name group topic brokers oo) = true ↔
      (name ≠ "" ∧ group ≠ "" ∧ topic ≠ "" ∧ brokers ≠ [])) ∧
    (exOk (simpleNew name topic brokers oo) = true ↔
      (name ≠ "" ∧ topic ≠ "" ∧ brokers ≠ [])) := by
  constructor
  · unfold groupNew
    by_cases h1 : name = "" <;> by_cases h2 : group = "" <;>
      by_cases h3 : brokers.length = 0 <;> by_cases h4 : topic = "" <;>
      simp_all [exOk, List.length_eq_zero]
  · unfold simpleNew
    by_cases h1 : name = "" <;> by_cases h3 : brokers.length = 0 <;>
      by_cases h4 : topic = "" <;>
      simp_all [exOk, List.length_eq_zero]

/-- C1: the claim that Close is safe before Consume fails on the group
consumer: the consumer built by Create has the nil coordination-client
interface in cg, Close before Consume calls Close on that nil interface, and
the call panics (result none in this model). The simple consumer Close and the
group Close after Consume are unaffected. -/
theorem C1_group_close_before_consume_panics :
    groupNew "svc" "grp" "orders" ["b1"] [] = .ok fac0 ∧
    groupCreate fac0 = .ok consumer0 ∧
    consumer0.cg = none ∧
    groupClose consumer0 = none := by
  exact ⟨rfl, rfl, rfl, rfl⟩

/-- C5: in simple mode, when partition discovery yields zero partitions,
Consume returns nil message and error queues together with a non-nil error and
starts no background pump task. -/
theorem C5_zero_partitions (c : SimpleConsumer) :
    simpleConsume c (.ok []) =
      { msgQueueCap := none, errQueueCap := none, tasksStarted := 0,
        err := some (.msg "got 0 partitions") } := rfl

/-- The claim-handler trace is the concatenation of the per-record event
blocks over exactly the records the handler reaches. -/
theorem consumeClaim_trace_blocks (g : String) (dec : Decoder)
    (rs : List (Int × RawRecord)) :
    (consumeClaim g dec rs).1 =
      (processedClaim dec rs).flatMap fun p => claimBlock g dec p.1 p.2 := by
  induction rs with
  | nil => rfl
  | cons hd tl ih =>
    obtain ⟨hwm, r⟩ := hd
    cases h : claimMessage dec true r with
    | error e =>
      simp [consumeClaim, processedClaim, claimBlock, h]
    | ok m =>
      simp [consumeClaim, processedClaim, claimBlock, h, ih]

/-- On a claim stream whose decodes all succeed, the handler invokes the claim
processor once per record in stream order, emits exactly the claim-processor
outputs in that order, and returns without error. -/
theorem consumeClaim_all_ok (g : String) (dec : Decoder) (rs : List (Int × RawRecord))
    (hOk : ∀ p ∈ rs, exOk (dec p.2.payload) = true) :
    decodeCalls (consumeClaim g dec rs).1 = rs.map (fun p => p.2) ∧
    emittedMessages (consumeClaim g dec rs).1 =
      rs.filterMap (fun p => (claimMessage dec true p.2).toOption) ∧
    (emittedMessages (consumeClaim g dec rs).1).length = rs.length ∧
    (consumeClaim g dec rs).2 = .ok () := by
  induction rs with
  | nil => exact ⟨rfl, rfl, rfl, rfl⟩
  | cons hd tl ih =>
    have hp := hOk hd (by simp)
    have htl : ∀ p ∈ tl, exOk (dec p.2.payload) = true := fun p hpm => hOk p (by simp [hpm])
    obtain ⟨ihd, ihm, ihl, ihr⟩ := ih htl
    obtain ⟨hwm, r⟩ := hd
    cases hd2 : dec r.payload with
    | error e => simp [exOk, hd2] at hp
    | ok v =>
      have hcm : claimMessage dec true r = .ok { value := v, hasAck := true } := by
        simp [claimMessage, hd2]
      simp only [decodeCalls, emittedMessages] at ihd ihm ihl
      refine ⟨?_, ?_, ?_, ?_⟩
      · simp [consumeClaim, hcm, decodeCalls, topicPartitionOffsetDiffGaugeSet, ihd]
      · simp [consumeClaim, hcm, emittedMessages, topicPartitionOffsetDiffGaugeSet,
          Except.toOption, ihm]
      · simp [consumeClaim, hcm, emittedMessages, topicPartitionOffsetDiffGaugeSet, ihl]
      · simp [consumeClaim, hcm, ihr]

/-- Splitting the claim stream after a succeeding prefix: the handler processes
the prefix, then continues on the rest as if it were the whole stream. -/
theorem consumeClaim_ok_append (g : String) (dec : Decoder)
    (pre rest : List (Int × RawRecord))
    (hOk : ∀ p ∈ pre, exOk (dec p.2.payload) = true) :
    (consumeClaim g dec (pre ++ rest)).1 =
      (consumeClaim g dec pre).1 ++ (consumeClaim g dec rest).1 ∧
    (consumeClaim g dec (pre ++ rest)).2 = (consumeClaim g dec rest).2 := by
  induction pre with
  | nil => exact ⟨rfl, rfl⟩
  | cons hd tl ih =>
    have hp := hOk hd (by simp)
    have htl : ∀ p ∈ tl, exOk (dec p.2.payload) = true := fun p hpm => hOk p (by simp [hpm])
    obtain ⟨iht, ihr⟩ := ih htl
    obtain ⟨hwm, r⟩ := hd
    cases hd2 : dec r.payload with
    | error e => simp [exOk, hd2] at hp
    | ok v =>
      have hcm : claimMessage dec true r = .ok { value := v, hasAck := true } := by
        simp [claimMessage, hd2]
      constructor <;> simp [consumeClaim, hcm, iht, ihr]

/-- C3: in group mode, for a claim stream of N records in offset order 0..N-1
whose decodes all succeed, the handler invokes the claim processor
synchronously once per record in that order and the message queue receives the
N claim-processor outputs in the identical order, with the handler returning
without error. -/
theorem C3_group_offset_order (g : String) (dec : Decoder)
    (rs : List (Int × RawRecord))
    (hOrd : ∀ i : Fin rs.length, (rs.get i).2.offset = (i : Nat))
    (hOk : ∀ p ∈ rs, exOk (dec p.2.payload) = true) :
    decodeCalls (consumeClaim g dec rs).1 = rs.map (fun p => p.2) ∧
    emittedMessages (consumeClaim g dec rs).1 =
      rs.filterMap (fun p => (claimMessage dec true p.2).toOption) ∧
    (emittedMessages (consumeClaim g dec rs).1).length = rs.length ∧
    (consumeClaim g dec rs).2 = .ok () :=
  consumeClaim_all_ok g dec rs hOk

/-- C3 witness: the two-record stream rsW at offsets 0 and 1 under the
always-succeeding decoder decW. -/
theorem C3_witness :
    decodeCalls (consumeClaim "grp" decW rsW).1 = rsW.map (fun p => p.2) ∧
    emittedMessages (consumeClaim "grp" decW rsW).1 =
      rsW.filterMap (fun p => (claimMessage decW true p.2).toOption) ∧
    (emittedMessages (consumeClaim "grp" decW rsW).1).length = rsW.length ∧
    (consumeClaim "grp" decW rsW).2 = .ok () :=
  C3_group_offset_order "grp" decW rsW (by decide) (by decide)

/-- A simple-mode pump fed only records never changes state or exits: it
dispatches one decode task per record in order, and the decode tasks put one
error on the error queue for exactly the records whose decode fails. -/
theorem pumpRecords_spec (dec : Decoder) (p : PumpState) (rs : List (Int × RawRecord)) :
    (pumpRecords dec p rs).1 = p ∧
    spawnedDecodes (pumpRecords dec p rs).2 = rs.map (fun q => q.2) ∧
    emittedErrors (pumpRecords dec p rs).2 =
      rs.filterMap (fun q =>
        match claimMessage dec false q.2 with
        | .error er => some er
        | .ok _ => none) := by
  induction rs generalizing p with
  | nil => exact ⟨rfl, rfl, rfl⟩
  | cons hd tl ih =>
    obtain ⟨hwm, r⟩ := hd
    obtain ⟨ihs, ihsp, ihe⟩ := ih p
    simp only [spawnedDecodes, emittedErrors] at ihsp ihe
    cases hd2 : claimMessage dec false r with
    | error er =>
      refine ⟨?_, ?_, ?_⟩ <;>
        simp [pumpRecords, pumpIter, decodeTask, hd2, topicPartitionOffsetDiffGaugeSet,
          spawnedDecodes, emittedErrors, List.filterMap_append, ihs, ihsp, ihe]
    | ok m =>
      refine ⟨?_, ?_, ?_⟩ <;>
        simp [pumpRecords, pumpIter, decodeTask, hd2, topicPartitionOffsetDiffGaugeSet,
          spawnedDecodes, emittedErrors, List.filterMap_append, ihs, ihsp, ihe]

/-- C4: decode errors are surfaced with mode-asymmetric scope. Group mode: on
the first record whose decode fails, the claim handler stops after that record
(its error is the handler result, no later record is claim-processed and no
message is emitted for the failing record or its successors), and the session
loop forwards the handler error onto the error queue and re-enters. Simple
mode: the pump dispatches a decode task for every record regardless of decode
failures, each failing record puts exactly its one error on the error queue,
and the pump neither exits nor changes state. -/
theorem C4_decode_error_scope (g : String) (dec : Decoder)
    (pre post : List (Int × RawRecord)) (hwm : Int) (r : RawRecord) (e : Err)
    (hpre : ∀ p ∈ pre, exOk (dec p.2.payload) = true)
    (hbad : dec r.payload = .error e)
    (dec2 : Decoder) (p : PumpState) (rs2 : List (Int × RawRecord)) :
    (consumeClaim g dec (pre ++ (hwm, r) :: post)).2 = .error e ∧
    decodeCalls (consumeClaim g dec (pre ++ (hwm, r) :: post)).1 =
      pre.map (fun q => q.2) ++ [r] ∧
    emittedMessages (consumeClaim g dec (pre ++ (hwm, r) :: post)).1 =
      pre.filterMap (fun q => (claimMessage dec true q.2).toOption) ∧
    cgConsumeResult { closed := false } (.error e) = some e ∧
    sessionLoopIter (some e) = (some e, true) ∧
    (pumpRecords dec2 p rs2).1 = p ∧
    spawnedDecodes (pumpRecords dec2 p rs2).2 = rs2.map (fun q => q.2) ∧
    emittedErrors (pumpRecords dec2 p rs2).2 =
      rs2.filterMap (fun q =>
        match claimMessage dec2 false q.2 with
        | .error er => some er
        | .ok _ => none) := by
  have hcmBad : claimMessage dec true r = .error e := by simp [claimMessage, hbad]
  have hone : consumeClaim g dec ((hwm, r) :: post) =
      ([topicPartitionOffsetDiffGaugeSet g r.topic r.partition hwm r.offset, .decodeCall r],
        .error e) := by
    simp [consumeClaim, hcmBad]
  obtain ⟨htr, hres⟩ := consumeClaim_ok_append g dec pre ((hwm, r) :: post) hpre
  obtain ⟨hd, hm, _, _⟩ := consumeClaim_all_ok g dec pre hpre
  obtain ⟨hp1, hp2, hp3⟩ := pumpRecords_spec dec2 p rs2
  simp only [decodeCalls] at hd
  simp only [emittedMessages] at hm
  refine ⟨?_, ?_, ?_, rfl, rfl, hp1, hp2, hp3⟩
  · rw [hres, hone]
  · rw [htr, hone]
    simp [decodeCalls, List.filterMap_append, topicPartitionOffsetDiffGaugeSet, hd]
  · rw [htr, hone]
    simp [emittedMessages, List.filterMap_append, topicPartitionOffsetDiffGaugeSet, hm]

/-- C4 witness: decMix succeeds on rec0 and fails on rec1; the claim stream has
rec0 before the failing rec1 and one abandoned record after it, and the pump
runs the two-record stream rsW. -/
theorem C4_witness :
    (consumeClaim "grp" decMix ([(5, rec0)] ++ (5, rec1) :: [(5, rec0)])).2 =
      .error (.msg "decode failed") ∧
    decodeCalls (consumeClaim "grp" decMix ([(5, rec0)] ++ (5, rec1) :: [(5, rec0)])).1 =
      [(((5 : Int), rec0))].map (fun q => q.2) ++ [rec1] ∧
    emittedMessages (consumeClaim "grp" decMix ([(5, rec0)] ++ (5, rec1) :: [(5, rec0)])).1 =
      [(((5 : Int), rec0))].filterMap (fun q => (claimMessage decMix true q.2).toOption) ∧
    cgConsumeResult { closed := false } (.error (.msg "decode failed")) =
      some (.msg "decode failed") ∧
    sessionLoopIter (some (.msg "decode failed")) = (some (.msg "decode failed"), true) ∧
    (pumpRecords decMix pump0 rsW).1 = pump0 ∧
    spawnedDecodes (pumpRecords decMix pump0 rsW).2 = rsW.map (fun q => q.2) ∧
    emittedErrors (pumpRecords decMix pump0 rsW).2 =
      rsW.filterMap (fun q =>
        match claimMessage decMix false q.2 with
        | .error er => some er
        | .ok _ => none) :=
  C4_decode_error_scope "grp" decMix [(5, rec0)] [(5, rec0)] 5 rec1
    (.msg "decode failed") (by decide) rfl decMix pump0 rsW

/-- C9: in both modes the lag gauge keyed by the group, topic and partition of
the record is updated with exactly highWaterMark minus offset, recomputed per
record, and the update precedes the decode of that record: the group handler
trace is the concatenation of per-record blocks, every block starts with the
gauge update immediately followed by the claim-processor invocation, and the
simple pump emits the gauge update (with the empty group key) before
dispatching the decode task of the record, whose first action is the decode. -/
theorem C9_lag_gauge_before_decode (g : String) (dec : Decoder)
    (rs : List (Int × RawRecord)) (hwm : Int) (r : RawRecord) (p : PumpState) :
    (consumeClaim g dec rs).1 =
      ((processedClaim dec rs).flatMap fun q => claimBlock g dec q.1 q.2) ∧
    (claimBlock g dec hwm r).take 2 =
      [Event.gauge g r.topic r.partition (hwm - r.offset), Event.decodeCall r] ∧
    pumpIter p (.record hwm r) =
      (p, [Event.gauge "" r.topic r.partition (hwm - r.offset), Event.spawnDecode r]) ∧
    (decodeTask dec r).head? = some (Event.decodeCall r) := by
  refine ⟨consumeClaim_trace_blocks g dec rs, ?_, rfl, ?_⟩
  · cases h : claimMessage dec true r <;>
      simp [claimBlock, h, topicPartitionOffsetDiffGaugeSet]
  · cases h : claimMessage dec false r <;> simp [decodeTask, h]

/-- The session loop never exits: with any steady per-iteration Consume result
it is still running after any number of iterations, and when that result is
the closed-client error every iteration forwards that error. -/
theorem sessionLoopRun_spec (res : Option Err) (n : Nat) :
    (sessionLoopRun res n).2 = false ∧
    sessionLoopRun (some errClosedConsumerGroup) n =
      (List.replicate n errClosedConsumerGroup, false) := by
  induction n with
  | zero => exact ⟨rfl, rfl⟩
  | succ k ih =>
    obtain ⟨ih1, ih2⟩ := ih
    constructor
    · cases res <;> simp [sessionLoopRun, sessionLoopIter, ih1]
    · simp [sessionLoopRun, sessionLoopIter, ih2, List.replicate_succ]

/-- C2 counterexample: after Close has closed the coordination client, the next
session-loop iteration does not exit: the Consume call fails with the
closed-client error, the iteration forwards it and continues, and after 100
further iterations the loop is still running, refuting bounded termination of
both background tasks. -/
theorem C2_counterexample :
    sessionLoopIter (cgConsumeResult { closed := true } (.ok ())) =
      (some errClosedConsumerGroup, true) ∧
    (sessionLoopRun (some errClosedConsumerGroup) 100).2 = false :=
  ⟨rfl, (sessionLoopRun_spec (some errClosedConsumerGroup) 100).1⟩

/-- C2 amended: after Close cancels the token, the watchdog unblocks, closes
the coordination client and terminates without signalling an error; the
session loop, however, never terminates: its Consume call on the closed client
fails with errClosedConsumerGroup and every iteration forwards that error onto
the error queue and re-enters, for any number of iterations. -/
theorem C2_watchdog_terminates_session_loop_spins (n : Nat) :
    watchdogIter true none = { result := .exitClean, clientClosed := true } ∧
    cgConsumeResult { closed := true } (.ok ()) = some errClosedConsumerGroup ∧
    sessionLoopRun (some errClosedConsumerGroup) n =
      (List.replicate n errClosedConsumerGroup, false) :=
  ⟨rfl, rfl, (sessionLoopRun_spec (some errClosedConsumerGroup) n).2⟩

/-- In the group.go option loop, the first failing mutator after a succeeding
prefix determines the result: the named-option error, independently of every
mutator declared after it. -/
theorem groupApplyOptions_first_fail (pre rest : List OptionFunc) (bad : OptionFunc)
    (cfg cfg2 : ConsumerConfig) (e : Err)
    (hpre : groupApplyOptions cfg pre = .ok cfg2)
    (hbad : bad.fn cfg2 = .error e) :
    groupApplyOptions cfg (pre ++ bad :: rest) = .error (.optionErr bad.funcName e) := by
  induction pre generalizing cfg with
  | nil =>
    simp [groupApplyOptions] at hpre
    subst hpre
    simp [groupApplyOptions, hbad]
  | cons o os ih =>
    cases ho : o.fn cfg with
    | error e2 => simp [groupApplyOptions, ho] at hpre
    | ok cfg3 =>
      simp only [groupApplyOptions, ho] at hpre
      simp only [List.cons_append, groupApplyOptions, ho]
      exact ih cfg3 hpre

/-- In the part_000 option loop, the first failing mutator yields the fixed
wrap of its error, independently of every mutator declared after it. -/
theorem group0ApplyOptions_first_fail (pre rest : List OptionFunc) (bad : OptionFunc)
    (cfg cfg2 : ConsumerConfig) (e : Err)
    (hpre : group0ApplyOptions cfg pre = .ok cfg2)
    (hbad : bad.fn cfg2 = .error e) :
    group0ApplyOptions cfg (pre ++ bad :: rest) =
      .error (.wrap "could not apply OptionFunc to consumer" e) := by
  induction pre generalizing cfg with
  | nil =>
    simp [group0ApplyOptions] at hpre
    subst hpre
    simp [group0ApplyOptions, hbad]
  | cons o os ih =>
    cases ho : o.fn cfg with
    | error e2 => simp [group0ApplyOptions, ho] at hpre
    | ok cfg3 =>
      simp only [group0ApplyOptions, ho] at hpre
      simp only [List.cons_append, group0ApplyOptions, ho]
      exact ih cfg3 hpre

/-- In the part_001 option loop, the first failing mutator yields its own error
unchanged, independently of every mutator declared after it. -/
theorem simpleApplyOptions_first_fail (pre rest : List OptionFunc) (bad : OptionFunc)
    (cfg cfg2 : ConsumerConfig) (e : Err)
    (hpre : simpleApplyOptions cfg pre = .ok cfg2)
    (hbad : bad.fn cfg2 = .error e) :
    simpleApplyOptions cfg (pre ++ bad :: rest) = .error e := by
  induction pre generalizing cfg with
  | nil =>
    simp [simpleApplyOptions] at hpre
    subst hpre
    simp [simpleApplyOptions, hbad]
  | cons o os ih =>
    cases ho : o.fn cfg with
    | error e2 => simp [simpleApplyOptions, ho] at hpre
    | ok cfg3 =>
      simp only [simpleApplyOptions, ho] at hpre
      simp only [List.cons_append, simpleApplyOptions, ho]
      exact ih cfg3 hpre

/-- C7 counterexample: the simple Create returns the failing option error
as-is: the result neither names the failing option nor wraps anything, so
Create does not return a wrapped error identifying which option failed. -/
theorem C7_counterexample :
    simpleCreate sfacBad = .error (.msg "boom") ∧
    (Err.msg "boom").namesOption = false ∧
    (Err.msg "boom").isWrapping = false :=
  ⟨rfl, rfl, rfl⟩

/-- C7 amended: Create applies the option mutators in declaration order and the
first failure aborts creation with no later mutator applied; the group Create
of src/async/kafka/group returns a wrapped error naming the failing option,
while the part_000 group Create wraps the error without naming the option and
the simple Create returns the failing option error unwrapped. -/
theorem C7_option_order_first_fail (nm gp tp : String) (bs : List String)
    (pre rest : List OptionFunc) (bad : OptionFunc)
    (cfgG cfgS : ConsumerConfig) (e eS : Err)
    (hpreG : groupApplyOptions (groupDefaultCC bs) pre = .ok cfgG)
    (hpre0 : group0ApplyOptions (groupDefaultCC bs) pre = .ok cfgG)
    (hpreS : simpleApplyOptions (simpleDefaultCC bs) pre = .ok cfgS)
    (hbadG : bad.fn cfgG = .error e)
    (hbadS : bad.fn cfgS = .error eS) :
    groupCreate ⟨nm, gp, tp, bs, pre ++ bad :: rest⟩ =
      .error (.optionErr bad.funcName e) ∧
    group0Create ⟨nm, gp, tp, bs, pre ++ bad :: rest⟩ =
      .error (.wrap "could not apply OptionFunc to consumer" e) ∧
    simpleCreate ⟨nm, tp, bs, pre ++ bad :: rest⟩ =
      .error eS := by
  have h1 := groupApplyOptions_first_fail pre rest bad _ _ e hpreG hbadG
  have h2 := group0ApplyOptions_first_fail pre rest bad _ _ e hpre0 hbadG
  have h3 := simpleApplyOptions_first_fail pre rest bad _ _ eS hpreS hbadS
  refine ⟨?_, ?_, ?_⟩ <;>
    simp [groupCreate, group0Create, simpleCreate, saramaConfig, h1, h2, h3]

/-- C7 witness: with no preceding options and the always-failing option badOpt,
all three Create variants abort with their respective error shapes. -/
theorem C7_witness :
    groupCreate ⟨"svc", "grp", "orders", ["b1"], [] ++ badOpt :: []⟩ =
      .error (.optionErr badOpt.funcName (.msg "boom")) ∧
    group0Create ⟨"svc", "grp", "orders", ["b1"], [] ++ badOpt :: []⟩ =
      .error (.wrap "could not apply OptionFunc to consumer" (.msg "boom")) ∧
    simpleCreate ⟨"svc", "orders", ["b1"], [] ++ badOpt :: []⟩ =
      .error (.msg "boom") :=
  C7_option_order_first_fail "svc" "grp" "orders" ["b1"] [] [] badOpt
    (groupDefaultCC ["b1"]) (simpleDefaultCC ["b1"]) (.msg "boom") (.msg "boom")
    rfl rfl rfl rfl rfl

/-- C8 counterexample: a simple consumer in the Consuming state owning the
master client handle. Close cancels the token and returns no error, and every
pump then self-closes its reader and exits, but the master broker client
handle the consumer owns is still open afterwards: Close did not release the
broker client resources the consumer owns. -/
theorem C8_counterexample :
    simpleClose simpleConsuming = .ok { simpleConsuming with ctxCancelled := true } ∧
    simpleConsuming.msSet = true ∧
    ({ simpleConsuming with ctxCancelled := true } : SimpleConsumer).msClosed = false ∧
    settlePumps [pump0] =
      [{ reader := { partition := 0, closed := true }, exited := true }] :=
  ⟨rfl, rfl, rfl, rfl⟩

/-- C8 amended: Close in simple mode cancels the token and returns no error;
it does not explicitly close the per-partition readers — each pump self-closes
its own reader and exits on observing cancellation — and it leaves the master
broker client handle untouched, so that handle is not released by Close. -/
theorem C8_close_cancels_only (c : SimpleConsumer) (p : PumpState)
    (hcnl : c.cnl = true) :
    simpleClose c = .ok { c with ctxCancelled := true } ∧
    ({ c with ctxCancelled := true } : SimpleConsumer).msClosed = c.msClosed ∧
    ({ c with ctxCancelled := true } : SimpleConsumer).msSet = c.msSet ∧
    pumpIter p .ctxDone =
      ({ reader := { p.reader with closed := true }, exited := true }, []) :=
  ⟨by simp [simpleClose, hcnl], rfl, rfl, rfl⟩

/-- C8 witness: the consuming simple consumer with one running pump. -/
theorem C8_witness :
    simpleClose simpleConsuming = .ok { simpleConsuming with ctxCancelled := true } ∧
    ({ simpleConsuming with ctxCancelled := true } : SimpleConsumer).msClosed =
      simpleConsuming.msClosed ∧
    ({ simpleConsuming with ctxCancelled := true } : SimpleConsumer).msSet =
      simpleConsuming.msSet ∧
    pumpIter pump0 .ctxDone =
      ({ reader := { pump0.reader with closed := true }, exited := true }, []) :=
  C8_close_cancels_only simpleConsuming pump0 rfl

/-- Options that each preserve the Buffer field leave the Buffer of the group
option fold unchanged on success. -/
theorem groupApplyOptions_buffer : ∀ (oo : List OptionFunc) (cfg cfg2 : ConsumerConfig),
    (∀ o ∈ oo, ∀ c c2, o.fn c = .ok c2 → c2.buffer = c.buffer) →
    groupApplyOptions cfg oo = .ok cfg2 → cfg2.buffer = cfg.buffer := by
  intro oo
  induction oo with
  | nil =>
    intro cfg cfg2 _ h
    simp [groupApplyOptions] at h
    rw [← h]
  | cons o os ih =>
    intro cfg cfg2 hbuf h
    cases ho : o.fn cfg with
    | error e => simp [groupApplyOptions, ho] at h
    | ok cfg3 =>
      simp only [groupApplyOptions, ho] at h
      have htl : ∀ o2 ∈ os, ∀ c c2, o2.fn c = .ok c2 → c2.buffer = c.buffer :=
        fun o2 hm => hbuf o2 (List.mem_cons_of_mem _ hm)
      rw [ih cfg3 cfg2 htl h, hbuf o (List.mem_cons_self _ _) cfg cfg3 ho]

/-- Options that each preserve the Buffer field leave the Buffer of the simple
option fold unchanged on success. -/
theorem simpleApplyOptions_buffer : ∀ (oo : List OptionFunc) (cfg cfg2 : ConsumerConfig),
    (∀ o ∈ oo, ∀ c c2, o.fn c = .ok c2 → c2.buffer = c.buffer) →
    simpleApplyOptions cfg oo = .ok cfg2 → cfg2.buffer = cfg.buffer := by
  intro oo
  induction oo with
  | nil =>
    intro cfg cfg2 _ h
    simp [simpleApplyOptions] at h
    rw [← h]
  | cons o os ih =>
    intro cfg cfg2 hbuf h
    cases ho : o.fn cfg with
    | error e => simp [simpleApplyOptions, ho] at h
    | ok cfg3 =>
      simp only [simpleApplyOptions, ho] at h
      have htl : ∀ o2 ∈ os, ∀ c c2, o2.fn c = .ok c2 → c2.buffer = c.buffer :=
        fun o2 hm => hbuf o2 (List.mem_cons_of_mem _ hm)
      rw [ih cfg3 cfg2 htl h, hbuf o (List.mem_cons_self _ _) cfg cfg3 ho]

/-- C10: unless an option mutator overrides the Buffer, the configuration
built by Create has Buffer 0 in group mode and 1000 in simple mode, and
Consume allocates the message queue and the error queue with exactly that
capacity: group-mode queues are unbuffered by default while simple-mode queues
hold up to 1000 entries each. -/
theorem C10_default_buffer_capacities (gf : GroupFactory) (sf : SimpleFactory)
    (gc : GroupConsumer) (sc : SimpleConsumer) (cg : CoordClient)
    (pcs : List PartitionReader)
    (hgb : ∀ o ∈ gf.oo, ∀ c c2, o.fn c = .ok c2 → c2.buffer = c.buffer)
    (hsb : ∀ o ∈ sf.oo, ∀ c c2, o.fn c = .ok c2 → c2.buffer = c.buffer)
    (hgc : groupCreate gf = .ok gc)
    (hsc : simpleCreate sf = .ok sc)
    (hne : pcs ≠ []) :
    gc.consumerCnf.buffer = 0 ∧
    sc.consumerCnf.buffer = 1000 ∧
    (groupConsume gc (.ok cg)).1.msgQueueCap = some 0 ∧
    (groupConsume gc (.ok cg)).1.errQueueCap = some 0 ∧
    simpleConsume sc (.ok pcs) =
      { msgQueueCap := some 1000, errQueueCap := some 1000,
        tasksStarted := pcs.length, err := none } := by
  have h1 : gc.consumerCnf.buffer = 0 := by
    cases hao : groupApplyOptions (groupDefaultCC gf.brokers) gf.oo with
    | error e => simp [groupCreate, saramaConfig, hao] at hgc
    | ok cc2 =>
      have hb := groupApplyOptions_buffer gf.oo _ cc2 hgb hao
      simp [groupCreate, saramaConfig, hao] at hgc
      rw [← hgc]
      simpa [groupDefaultCC] using hb
  have h2 : sc.consumerCnf.buffer = 1000 := by
    cases hao : simpleApplyOptions (simpleDefaultCC sf.brokers) sf.oo with
    | error e => simp [simpleCreate, saramaConfig, hao] at hsc
    | ok cc2 =>
      have hb := simpleApplyOptions_buffer sf.oo _ cc2 hsb hao
      simp [simpleCreate, saramaConfig, hao] at hsc
      rw [← hsc]
      simpa [simpleDefaultCC] using hb
  refine ⟨h1, h2, ?_, ?_, ?_⟩
  · simp [groupConsume, h1]
  · simp [groupConsume, h1]
  · simp [simpleConsume, List.length_eq_zero, hne, h2]

/-- C10 witness: the optionless factories fac0 and sfac0, the consumers their
Creates build, one open coordination client and one discovered partition. -/
theorem C10_witness :
    consumer0.consumerCnf.buffer = 0 ∧
    simpleConsumer0.consumerCnf.buffer = 1000 ∧
    (groupConsume consumer0 (.ok { closed := false })).1.msgQueueCap = some 0 ∧
    (groupConsume consumer0 (.ok { closed := false })).1.errQueueCap = some 0 ∧
    simpleConsume simpleConsumer0 (.ok [reader0]) =
      { msgQueueCap := some 1000, errQueueCap := some 1000,
        tasksStarted := [reader0].length, err := none } :=
  C10_default_buffer_capacities fac0 sfac0 consumer0 simpleConsumer0
    { closed := false } [reader0] (by simp [fac0]) (by simp [sfac0]) rfl rfl (by simp)

end Patron
